import Mathlib

/-!
# electric_notes: the terminal client's search session (`client.go`)

A shallow embedding of the client's state and of the functions that act on it:
`adjust_selected_index`, `search_for`, and the closures `search`, `on_change` and
the key handler of `main`.

* The two variables `search_payload` and `search_result` of `main`, which every
  function receives by pointer, are the two fields of `Session`.
* Go strings are Lean strings (every string the client sees comes from the input
  field or from a decoded JSON reply, hence is valid UTF-8), Go `int` is `Int`
  with an explicit 64-bit wrap where the code adds, slices are lists.
* Calls that leave the process (the HTTP post, the terminal toolkit, the
  editor, the clipboard) are recorded in a list of `Effect`s, in program order.
  What the server answers is a parameter: `post` maps the result struct before
  the call to the result struct after the reply was decoded into it.
* An index-out-of-range panic is the `panicked` flag of `Outcome`, together with
  the state at the moment of the panic.
-/

namespace ElectricNotes

/-! ## Data model -/

/-- The struct `SearchPayload`: the body of a search request. -/
structure SearchPayload where
  Query : String
  SelectedIndex : Int
deriving DecidableEq

/-- The struct `SearchResult`. `Scores` is decoded from the reply and never read
by the client; its entries are kept as exact rationals. -/
structure SearchResult where
  IsMore : Bool
  MatchedNames : List String
  Scores : List Rat
  SelectedContent : String
  SelectedName : String
deriving DecidableEq

/-- The variables `search_payload` and `search_result` of `main`, shared by every
closure and passed by pointer to `adjust_selected_index` and `search_for`. -/
structure Session where
  search_payload : SearchPayload
  search_result : SearchResult
deriving DecidableEq

/-- The two request bodies the client posts: a `SearchPayload` to `search`, a
one-entry map `note_name ↦ name` to `delete`. -/
inductive Payload where
  | search (p : SearchPayload)
  | delete (note_name : String)
deriving DecidableEq

/-- What the client does to the outside world, in program order. -/
inductive Effect where
  /-- `post(endpoint, payload, _)`: one HTTP request. -/
  | post (endpoint : String) (payload : Payload)
  /-- `render_ui`: the table rows, the selected row, the text of the preview. -/
  | render (rows : List String) (selected : Int) (text : String)
  /-- `app.Draw()`. -/
  | draw
  /-- `app.Stop()`. -/
  | stop
  /-- `go search()`: a search is dispatched on a goroutine of its own. -/
  | go_search
  /-- `open_note(note_name, selected_content, dir_path_meta, app)`. -/
  | open_note (note_name selected_content : String)
  /-- `clipboard.WriteAll(text)`. -/
  | clipboard (text : String)
  /-- `ui.Table.Select(row, 0)`. -/
  | select (row : Int)
deriving DecidableEq

/-- The type `post_type`: endpoint, payload (read only) and the result struct the
reply is decoded into; the value is the result struct after the call. -/
abbrev post_type := String → Payload → SearchResult → SearchResult

/-- The decoded body of a reply to `POST /search`, a JSON object. Each key that
`json.Unmarshal` reads into a `SearchResult` may be there or not: the four keys
named by the JSON tags, and the key `SelectedName`, which the decoder matches
with the untagged field of that name. `none` is a key that is absent (or, for
the strings and the boolean, `null`); a `null` list is `some []`. -/
structure Reply where
  is_more : Option Bool
  matched_basenames : Option (List String)
  scores : Option (List Rat)
  selected_content : Option String
  SelectedName : Option String
deriving DecidableEq

/-- A reply whose body carries the four tagged keys and no `SelectedName` key. -/
def full_reply (is_more : Bool) (matched_basenames : List String) (scores : List Rat)
    (selected_content : String) : Reply :=
  { is_more := some is_more
    matched_basenames := some matched_basenames
    scores := some scores
    selected_content := some selected_content
    SelectedName := none }

/-- `json.Unmarshal(resp_json, result)`: a field whose key is in the body is
overwritten, a field whose key is absent is left as it was. -/
def Unmarshal (r : Reply) (result : SearchResult) : SearchResult :=
  { IsMore := r.is_more.getD result.IsMore
    MatchedNames := r.matched_basenames.getD result.MatchedNames
    Scores := r.scores.getD result.Scores
    SelectedContent := r.selected_content.getD result.SelectedContent
    SelectedName := r.SelectedName.getD result.SelectedName }

/-- `post_to`: send the payload to the endpoint and decode the reply into
`result`. Host and port name the server, here the function `server` from a
request to its reply. A failed exchange or a body that does not decode ends the
process (`log.Fatalln`) and has no result state; only successful exchanges are
described. -/
def post_to (server : String → Payload → Reply) : post_type :=
  fun endpoint payload result => Unmarshal (server endpoint payload) result

/-- Width of Go's `int` on 64-bit targets. -/
def int_bits : Nat := 64

/-- Two's-complement wrap of a mathematical integer into Go's `int`. -/
def wrap_int (z : Int) : Int :=
  (z + 2 ^ (int_bits - 1)) % 2 ^ int_bits - 2 ^ (int_bits - 1)

/-- Go's `xs[i]` on a slice: `none` stands for the index-out-of-range panic. -/
def index (xs : List String) (i : Int) : Option String :=
  if i < 0 then none else xs[i.toNat]?

/-- `strings.HasPrefix(s, pre)`. On valid UTF-8 a byte prefix is a character
prefix. -/
def HasPrefix (s pre : String) : Bool :=
  pre.data.isPrefixOf s.data

/-! ## `adjust_selected_index` -/

/-- `adjust_selected_index(amount, &search_payload, &search_result)`. -/
def adjust_selected_index (amount : Int) (s : Session) : Session :=
  if s.search_result.MatchedNames.length = 0 then
    s
  else
    let selected_index := wrap_int (s.search_payload.SelectedIndex + amount)
    let selected_index :=
      if selected_index > (s.search_result.MatchedNames.length : Int) then
        (s.search_result.MatchedNames.length : Int)
      else selected_index
    let selected_index := if selected_index < 0 then 0 else selected_index
    { s with search_payload := { s.search_payload with SelectedIndex := selected_index } }

/-! ## `search_for` -/

/-- Result of a call that may panic: the state it left, the effects it had, and
whether it ended in a panic. -/
structure Outcome where
  session : Session
  effects : List Effect
  panicked : Bool
deriving DecidableEq

/-- `render_ui(ui, search_payload, search_result)`. -/
def render_ui (s : Session) : List Effect :=
  [Effect.render s.search_result.MatchedNames s.search_payload.SelectedIndex
    s.search_result.SelectedContent]

/-- The statements of `search_for` after `post` has returned: truncation to nine
names, the synthetic entry, the reset of the index, `SelectedName`, rendering. -/
def search_for_rest (s : Session) : Outcome :=
  let query := s.search_payload.Query
  let names := s.search_result.MatchedNames
  let names := if names.length > 9 then names.take 9 else names
  let name_match := names.any (fun note_name => note_name == query)
  let names :=
    if !name_match && query != "" then names ++ [query ++ " [[Create New Note]]"] else names
  let selected_index :=
    if s.search_payload.SelectedIndex ≥ (names.length : Int) then 0
    else s.search_payload.SelectedIndex
  let payload : SearchPayload := { s.search_payload with SelectedIndex := selected_index }
  let result : SearchResult := { s.search_result with MatchedNames := names }
  if names.length = 0 then
    let s1 : Session := ⟨payload, { result with SelectedName := "" }⟩
    ⟨s1, render_ui s1, false⟩
  else if selected_index < (names.length : Int) - 1 then
    match index names selected_index with
    | some name =>
      let s1 : Session := ⟨payload, { result with SelectedName := name }⟩
      ⟨s1, render_ui s1, false⟩
    | none => ⟨⟨payload, result⟩, [], true⟩
  else
    let s1 : Session := ⟨payload, { result with SelectedName := query }⟩
    ⟨s1, render_ui s1, false⟩

/-- The first statement of `search_for`, before `post` is called: the preview is
cleared. -/
def search_for_sent (s : Session) : Session :=
  { s with search_result := { s.search_result with SelectedContent := "" } }

/-- `search_for(&search_payload, &search_result, post, ui)`. -/
def search_for (post : post_type) (s : Session) : Outcome :=
  let sent := search_for_sent s
  let replied : SearchResult := post "search" (Payload.search sent.search_payload) sent.search_result
  let o := search_for_rest ⟨sent.search_payload, replied⟩
  { o with effects := Effect.post "search" (Payload.search sent.search_payload) :: o.effects }

/-! ## The closures of `main` -/

/-- The initial values of `search_payload` and `search_result` in `main`. -/
def init : Session :=
  { search_payload := { Query := "", SelectedIndex := 0 }
    search_result :=
      { IsMore := false, MatchedNames := [], Scores := [], SelectedContent := "",
        SelectedName := "" } }

/-- The closure `search`: the local branch for a query that starts with a colon,
`search_for` otherwise; a panic is recovered and stops the application, in which
case `app.Draw()` is not reached. -/
def search (post : post_type) (s : Session) : Session × List Effect :=
  if HasPrefix s.search_payload.Query ":" then
    ({ s with
        search_result :=
          { s.search_result with MatchedNames := [], SelectedContent := "", SelectedName := "" } },
      [Effect.draw])
  else
    let o := search_for post s
    if o.panicked then (o.session, o.effects ++ [Effect.stop])
    else (o.session, o.effects ++ [Effect.draw])

/-- The closure `on_change`: store the new query and dispatch a search. -/
def on_change (new_query : String) (s : Session) : Session × List Effect :=
  ({ s with search_payload := { s.search_payload with Query := new_query } }, [Effect.go_search])

/-- The keys the input capture of `main` tells apart. -/
inductive Key where
  | KeyDown | KeyUp | KeyEnter | KeyCtrlD | KeyCtrlK | KeyCtrlX | other
deriving DecidableEq

/-- The function given to `app.SetInputCapture`. -/
def input_capture (post : post_type) (k : Key) (s : Session) : Session × List Effect :=
  let r : Session × List Effect :=
    match k with
    | Key.KeyDown => (adjust_selected_index 1 s, [Effect.go_search])
    | Key.KeyUp => (adjust_selected_index (-1) s, [Effect.go_search])
    | Key.KeyEnter =>
      let stopping := if s.search_payload.Query = ":q" then [Effect.stop] else []
      let note_name := s.search_result.SelectedName
      let note_name := if note_name = "" then s.search_payload.Query else note_name
      (s, stopping ++ [Effect.open_note note_name s.search_result.SelectedContent])
    | Key.KeyCtrlD => (s, [Effect.stop])
    | Key.KeyCtrlK =>
      let r := search post s
      (r.1, Effect.post "delete" (Payload.delete s.search_result.SelectedName) :: r.2)
    | Key.KeyCtrlX => (s, [Effect.clipboard s.search_result.SelectedContent])
    | Key.other => (s, [])
  (r.1, r.2 ++ [Effect.select r.1.search_payload.SelectedIndex])

/-! ## Observations -/

/-- The requests among a list of effects. -/
def posts (es : List Effect) : List (String × Payload) :=
  es.filterMap fun e =>
    match e with
    | Effect.post endpoint payload => some (endpoint, payload)
    | _ => none

/-- The `open_note` calls among a list of effects. -/
def opened (es : List Effect) : List (String × String) :=
  es.filterMap fun e =>
    match e with
    | Effect.open_note note_name selected_content => some (note_name, selected_content)
    | _ => none

/-- Whether `app.Stop()` is among a list of effects. -/
def stopped (es : List Effect) : Bool :=
  es.contains Effect.stop

/-- What the user sees: the table rows, the selected row, the selected name and
the preview. -/
structure Displayed where
  MatchedNames : List String
  SelectedIndex : Int
  SelectedName : String
  SelectedContent : String
deriving DecidableEq

/-- The displayed part of a session. -/
def displayed (s : Session) : Displayed :=
  { MatchedNames := s.search_result.MatchedNames
    SelectedIndex := s.search_payload.SelectedIndex
    SelectedName := s.search_result.SelectedName
    SelectedContent := s.search_result.SelectedContent }

/-- The names the server returned to the request `search_for` sends from `s`:
`MatchedNames` right after `post` has returned. -/
def returned_names (post : post_type) (s : Session) : List String :=
  (post "search" (Payload.search s.search_payload) (search_for_sent s).search_result).MatchedNames

/-- The list `search_for` shows for a query and the names the server returned:
the first nine names, then the synthetic entry when the query is not empty and
not among them. -/
def shown_names (query : String) (returned : List String) : List String :=
  returned.take 9 ++
    (if query ≠ "" ∧ query ∉ returned.take 9 then [query ++ " [[Create New Note]]"] else [])

/-- The selected index `search_for` leaves: zero when the old one is at or past
the end of the shown list. -/
def reset_index (i : Int) (names : List String) : Int :=
  if i ≥ (names.length : Int) then 0 else i

/-- `SelectedName` as `search_for` computes it from the shown list, the index it
left and the query: every row but the last one names itself, the last row
names the query. -/
def selected_name (query : String) (names : List String) (i : Int) : String :=
  if names = [] then ""
  else if i < (names.length : Int) - 1 then names.getD i.toNat ""
  else query

/-! ## Interleavings of the shared state

`go search()` runs `search` on a goroutine of its own against the shared
`Session`. A run that posts has two halves: up to the call of `post`
(`search_for_sent`), and from the return of `post` on (the reply is decoded into
the shared result, then `search_for_rest` runs on whatever the shared state is
by then). The steps below are these halves, taken one at a time in the order in
which they happen. -/

/-- The second half of a posting `search`: the reply `r` arrives, is decoded
into the shared result, and `search_for` runs to its end. -/
def arrive (r : Reply) (s : Session) : Outcome :=
  search_for_rest ⟨s.search_payload, Unmarshal r s.search_result⟩

/-- One step of the session. -/
inductive Event where
  /-- A call `adjust_selected_index(amount, _, _)`. -/
  | adjust (amount : Int)
  /-- The assignment `search_payload.Query = new_query` of `on_change`. -/
  | change (new_query : String)
  /-- One whole run of the closure `search`, the server answering through `post`. -/
  | searched (post : post_type)
  /-- The first half of a posting `search`. -/
  | sent
  /-- The second half of a posting `search`. -/
  | arrived (r : Reply)

/-- The session after one step. -/
def step (e : Event) (s : Session) : Session :=
  match e with
  | Event.adjust amount => adjust_selected_index amount s
  | Event.change new_query => (on_change new_query s).1
  | Event.searched post => (search post s).1
  | Event.sent => search_for_sent s
  | Event.arrived r => (arrive r s).session

/-- The session after a list of steps, first step first. -/
def run (es : List Event) (s : Session) : Session :=
  es.foldl (fun s e => step e s) s

/-- The bound on the selected index: `0 ≤ SelectedIndex ≤ len(MatchedNames)`. -/
def index_in_range (s : Session) : Prop :=
  0 ≤ s.search_payload.SelectedIndex ∧
    s.search_payload.SelectedIndex ≤ (s.search_result.MatchedNames.length : Int)

instance (s : Session) : Decidable (index_in_range s) := by
  unfold index_in_range
  infer_instance

/-- The sessions reached from `init` by calls of `adjust_selected_index`, query
changes and runs of `search_for`, that is, without the local branch of `search`
for a query that starts with a colon. -/
inductive ReachedByCalls : Session → Prop where
  | init : ReachedByCalls init
  | adjust (amount : Int) (s : Session) :
      ReachedByCalls s → ReachedByCalls (adjust_selected_index amount s)
  | change (new_query : String) (s : Session) :
      ReachedByCalls s → ReachedByCalls (on_change new_query s).1
  | search_for (post : post_type) (s : Session) :
      ReachedByCalls s → ReachedByCalls (search_for post s).session

/-! ## Auxiliary facts -/

theorem truncate_eq_take (l : List String) :
    (if l.length > 9 then l.take 9 else l) = l.take 9 := by
  split
  · rfl
  · rw [List.take_of_length_le (by omega)]

theorem append_synthetic_eq (query : String) (l : List String) :
    (if (!((l.take 9).any fun note_name => note_name == query) && query != "") = true then
        l.take 9 ++ [query ++ " [[Create New Note]]"] else l.take 9) =
      shown_names query l := by
  unfold shown_names
  by_cases hq : query = "" <;> by_cases hm : query ∈ l.take 9 <;> simp [hq, hm]

theorem search_for_rest_names (s : Session) :
    (search_for_rest s).session.search_result.MatchedNames =
      shown_names s.search_payload.Query s.search_result.MatchedNames := by
  unfold search_for_rest
  simp only [truncate_eq_take, append_synthetic_eq]
  generalize shown_names s.search_payload.Query s.search_result.MatchedNames = names
  split_ifs <;> first | rfl | (split <;> rfl)

theorem search_for_rest_index (s : Session) :
    (search_for_rest s).session.search_payload.SelectedIndex =
      reset_index s.search_payload.SelectedIndex
        (shown_names s.search_payload.Query s.search_result.MatchedNames) := by
  unfold search_for_rest reset_index
  simp only [truncate_eq_take, append_synthetic_eq]
  generalize shown_names s.search_payload.Query s.search_result.MatchedNames = names
  split_ifs <;> first | rfl | (split <;> rfl)

theorem search_for_rest_query (s : Session) :
    (search_for_rest s).session.search_payload.Query = s.search_payload.Query := by
  unfold search_for_rest
  simp only [truncate_eq_take, append_synthetic_eq]
  generalize shown_names s.search_payload.Query s.search_result.MatchedNames = names
  split_ifs <;> first | rfl | (split <;> rfl)

theorem search_for_rest_content (s : Session) :
    (search_for_rest s).session.search_result.SelectedContent =
      s.search_result.SelectedContent := by
  unfold search_for_rest
  simp only [truncate_eq_take, append_synthetic_eq]
  generalize shown_names s.search_payload.Query s.search_result.MatchedNames = names
  split_ifs <;> first | rfl | (split <;> rfl)

theorem index_of_nonneg (xs : List String) (i : Int) (h0 : 0 ≤ i) (h1 : i < xs.length) :
    index xs i = some (xs.getD i.toNat "") := by
  unfold index
  have h2 : i.toNat < xs.length := by omega
  rw [if_neg (by omega), List.getElem?_eq_getElem h2, List.getD_eq_getElem xs "" h2]

theorem reset_index_nonneg (i : Int) (names : List String) (h : 0 ≤ i) :
    0 ≤ reset_index i names := by
  unfold reset_index
  split <;> omega

theorem reset_index_le (i : Int) (names : List String) :
    reset_index i names ≤ names.length := by
  unfold reset_index
  split <;> omega

theorem reset_index_idem (i : Int) (names : List String) :
    reset_index (reset_index i names) names = reset_index i names := by
  unfold reset_index
  split_ifs <;> rfl

/-- On a non-negative index `search_for_rest` does not panic, and `SelectedName`
is `selected_name` of the shown list, the index left and the query. -/
theorem search_for_rest_selected (s : Session) (h : 0 ≤ s.search_payload.SelectedIndex) :
    (search_for_rest s).panicked = false ∧
    (search_for_rest s).session.search_result.SelectedName =
      selected_name s.search_payload.Query
        (shown_names s.search_payload.Query s.search_result.MatchedNames)
        (reset_index s.search_payload.SelectedIndex
          (shown_names s.search_payload.Query s.search_result.MatchedNames)) := by
  have h0 := reset_index_nonneg s.search_payload.SelectedIndex
    (shown_names s.search_payload.Query s.search_result.MatchedNames) h
  unfold search_for_rest selected_name
  unfold reset_index at h0 ⊢
  simp only [truncate_eq_take, append_synthetic_eq]
  generalize shown_names s.search_payload.Query s.search_result.MatchedNames = names at h0 ⊢
  generalize (if s.search_payload.SelectedIndex ≥ (names.length : Int) then (0 : Int)
    else s.search_payload.SelectedIndex) = i at h0 ⊢
  by_cases hn : names = []
  · subst hn
    simp
  · have hlen : names.length ≠ 0 := by simpa using hn
    rw [if_neg hlen, if_neg hn]
    by_cases hi : i < (names.length : Int) - 1
    · rw [if_pos hi, if_pos hi, index_of_nonneg names i h0 (by omega)]
      exact ⟨rfl, rfl⟩
    · rw [if_neg hi, if_neg hi]
      exact ⟨rfl, rfl⟩

/-- The state `search_for` leaves is the one `search_for_rest` leaves on the
result the reply was decoded into. -/
theorem search_for_session (post : post_type) (s : Session) :
    (search_for post s).session =
      (search_for_rest ⟨s.search_payload,
        post "search" (Payload.search s.search_payload) (search_for_sent s).search_result⟩).session :=
  rfl

theorem search_for_panicked (post : post_type) (s : Session) :
    (search_for post s).panicked =
      (search_for_rest ⟨s.search_payload,
        post "search" (Payload.search s.search_payload) (search_for_sent s).search_result⟩).panicked :=
  rfl

theorem search_for_names (post : post_type) (s : Session) :
    (search_for post s).session.search_result.MatchedNames =
      shown_names s.search_payload.Query (returned_names post s) := by
  rw [search_for_session, search_for_rest_names]
  rfl

theorem search_for_index (post : post_type) (s : Session) :
    (search_for post s).session.search_payload.SelectedIndex =
      reset_index s.search_payload.SelectedIndex
        (shown_names s.search_payload.Query (returned_names post s)) := by
  rw [search_for_session, search_for_rest_index]
  rfl

theorem search_for_query (post : post_type) (s : Session) :
    (search_for post s).session.search_payload.Query = s.search_payload.Query := by
  rw [search_for_session, search_for_rest_query]

theorem search_for_selected (post : post_type) (s : Session)
    (h : 0 ≤ s.search_payload.SelectedIndex) :
    (search_for post s).panicked = false ∧
    (search_for post s).session.search_result.SelectedName =
      selected_name s.search_payload.Query
        (shown_names s.search_payload.Query (returned_names post s))
        (reset_index s.search_payload.SelectedIndex
          (shown_names s.search_payload.Query (returned_names post s))) := by
  rw [search_for_session, search_for_panicked]
  exact search_for_rest_selected ⟨s.search_payload, _⟩ h

/-! ## The synthetic entry (C1, C5) -/

/-- C1 as stated fails: the query `q` is the tenth of ten returned names; the
truncation to nine names comes before the comparison with the query, so the
shown list is the first nine names followed by the synthetic entry. -/
theorem exact_match_past_nine_gets_synthetic :
    "q" ∈ returned_names
        (post_to fun _ _ =>
          (full_reply false ["n1", "n2", "n3", "n4", "n5", "n6", "n7", "n8", "n9", "q"] [] ""))
        ⟨⟨"q", 0⟩, init.search_result⟩ ∧
      (search_for
        (post_to fun _ _ =>
          (full_reply false ["n1", "n2", "n3", "n4", "n5", "n6", "n7", "n8", "n9", "q"] [] ""))
        ⟨⟨"q", 0⟩, init.search_result⟩).session.search_result.MatchedNames =
        ["n1", "n2", "n3", "n4", "n5", "n6", "n7", "n8", "n9", "q [[Create New Note]]"] ∧
      (search_for
        (post_to fun _ _ =>
          (full_reply false ["n1", "n2", "n3", "n4", "n5", "n6", "n7", "n8", "n9", "q"] [] ""))
        ⟨⟨"q", 0⟩, init.search_result⟩).session.search_result.MatchedNames ≠
        ["n1", "n2", "n3", "n4", "n5", "n6", "n7", "n8", "n9"] := by
  decide

/-- C1, amended. For every query and every reply, if one of the first nine
returned names equals the query, the list `search_for` leaves in `MatchedNames`
has no synthetic entry: it is the returned names truncated to the first nine. -/
theorem exact_match_no_synthetic (post : post_type) (s : Session)
    (h : s.search_payload.Query ∈ (returned_names post s).take 9) :
    (search_for post s).session.search_result.MatchedNames =
      (returned_names post s).take 9 := by
  rw [search_for_names]
  unfold shown_names
  simp [h]

/-- C1, scenario A: query `todo`, the server returns `todo` and `todolist`. -/
theorem exact_match_no_synthetic_witness :
    (search_for (post_to fun _ _ => (full_reply false ["todo", "todolist"] [1, 1 / 2] ""))
        ⟨⟨"todo", 0⟩, init.search_result⟩).session.search_result.MatchedNames =
      ["todo", "todolist"] :=
  exact_match_no_synthetic (post_to fun _ _ => (full_reply false ["todo", "todolist"] [1, 1 / 2] ""))
    ⟨⟨"todo", 0⟩, init.search_result⟩ (by decide)

/-! ## The selected name (C2) -/

/-- What `search_for` computes on a non-negative index: it does not panic, and
`SelectedName` is empty for an empty shown list, the name in the selected row
when that row is not the last one, and the query when it is the last row,
whether or not the last row is the synthetic entry. -/
theorem search_for_selected_name (post : post_type) (s : Session)
    (h : 0 ≤ s.search_payload.SelectedIndex) :
    (search_for post s).panicked = false ∧
    (search_for post s).session.search_result.SelectedName =
      (if (search_for post s).session.search_result.MatchedNames = [] then ""
       else if (search_for post s).session.search_payload.SelectedIndex <
            ((search_for post s).session.search_result.MatchedNames.length : Int) - 1 then
          (search_for post s).session.search_result.MatchedNames.getD
            (search_for post s).session.search_payload.SelectedIndex.toNat ""
       else s.search_payload.Query) := by
  rw [search_for_names, search_for_index]
  exact search_for_selected post s h

/-- C2 fails on the code. Query `todo`, index 1, the server returns `todo` and
`todolist`: no synthetic entry is shown, row 1 is the returned name `todolist`,
and `search_for` sets `SelectedName` to the query `todo`. -/
theorem last_real_match_named_as_query :
    (search_for (post_to fun _ _ => (full_reply false ["todo", "todolist"] [1, 1 / 2] "text"))
        ⟨⟨"todo", 1⟩, init.search_result⟩).session.search_result.MatchedNames =
        ["todo", "todolist"] ∧
      (search_for (post_to fun _ _ => (full_reply false ["todo", "todolist"] [1, 1 / 2] "text"))
        ⟨⟨"todo", 1⟩, init.search_result⟩).session.search_payload.SelectedIndex = 1 ∧
      (search_for (post_to fun _ _ => (full_reply false ["todo", "todolist"] [1, 1 / 2] "text"))
        ⟨⟨"todo", 1⟩, init.search_result⟩).session.search_result.SelectedName = "todo" ∧
      (search_for (post_to fun _ _ => (full_reply false ["todo", "todolist"] [1, 1 / 2] "text"))
        ⟨⟨"todo", 1⟩, init.search_result⟩).panicked = false := by
  decide

/-! ## The reset of the index (C8) and idempotence (C7) -/

/-- C8. For every new query, prior index and reply: after `on_change` has stored
the query and `search_for` has run, the query is the new query and the index is
0 when the prior index is at or past the length of the new shown list (synthetic
entry included), the prior index otherwise; on a non-negative prior index
`search_for` runs to its end. -/
theorem reset_after_query_change (post : post_type) (new_query : String) (s : Session) :
    (search_for post (on_change new_query s).1).session.search_payload.Query = new_query ∧
      (search_for post (on_change new_query s).1).session.search_payload.SelectedIndex =
        (if s.search_payload.SelectedIndex ≥
            ((search_for post (on_change new_query s).1).session.search_result.MatchedNames.length
              : Int) then 0
         else s.search_payload.SelectedIndex) ∧
      (0 ≤ s.search_payload.SelectedIndex →
        (search_for post (on_change new_query s).1).panicked = false) := by
  refine ⟨?_, ?_, ?_⟩
  · rw [search_for_query]
    rfl
  · rw [search_for_index, search_for_names]
    rfl
  · intro h
    exact (search_for_selected post (on_change new_query s).1 h).1

/-- C8 at a concrete input: index 3, new query `ab`, the server returns one
name; the new shown list has two rows and the index is back at 0. -/
theorem reset_after_query_change_witness :
    (search_for (post_to fun _ _ => (full_reply false ["abc"] [1] ""))
        (on_change "ab" ⟨⟨"a", 3⟩, init.search_result⟩).1).session.search_payload.Query = "ab" ∧
      (search_for (post_to fun _ _ => (full_reply false ["abc"] [1] ""))
        (on_change "ab" ⟨⟨"a", 3⟩, init.search_result⟩).1).session.search_payload.SelectedIndex
        = 0 ∧
      (search_for (post_to fun _ _ => (full_reply false ["abc"] [1] ""))
        (on_change "ab" ⟨⟨"a", 3⟩, init.search_result⟩).1).panicked = false :=
  have h := reset_after_query_change (post_to fun _ _ => (full_reply false ["abc"] [1] "")) "ab"
    ⟨⟨"a", 3⟩, init.search_result⟩
  ⟨h.1, h.2.1.trans (by decide), h.2.2 (by decide)⟩

theorem search_for_content (post : post_type) (s : Session) :
    (search_for post s).session.search_result.SelectedContent =
      (post "search" (Payload.search s.search_payload)
        (search_for_sent s).search_result).SelectedContent := by
  rw [search_for_session, search_for_rest_content]

/-- C7 as stated fails. The body `{}` decodes without error and carries no
list of names, so the decoder leaves `MatchedNames` as it was. With the query
`zzz` and nothing shown, the first run shows the synthetic entry; the second run
starts from that list, finds no name equal to the query, and appends the
synthetic entry a second time. -/
theorem empty_body_appends_second_synthetic :
    (search_for (post_to fun _ _ => ⟨none, none, none, none, none⟩)
        ⟨⟨"zzz", 0⟩, init.search_result⟩).session.search_result.MatchedNames =
      ["zzz [[Create New Note]]"] ∧
    (search_for (post_to fun _ _ => ⟨none, none, none, none, none⟩)
        (search_for (post_to fun _ _ => ⟨none, none, none, none, none⟩)
          ⟨⟨"zzz", 0⟩, init.search_result⟩).session).session.search_result.MatchedNames =
      ["zzz [[Create New Note]]", "zzz [[Create New Note]]"] ∧
    displayed
        (search_for (post_to fun _ _ => ⟨none, none, none, none, none⟩)
          (search_for (post_to fun _ _ => ⟨none, none, none, none, none⟩)
            ⟨⟨"zzz", 0⟩, init.search_result⟩).session).session ≠
      displayed
        (search_for (post_to fun _ _ => ⟨none, none, none, none, none⟩)
          ⟨⟨"zzz", 0⟩, init.search_result⟩).session := by
  decide

theorem returned_names_of_carried (r : Reply) (s : Session) (names : List String)
    (hn : r.matched_basenames = some names) :
    returned_names (post_to fun _ _ => r) s = names := by
  show (r.matched_basenames.getD _) = names
  rw [hn]
  rfl

theorem search_for_content_post_to (r : Reply) (s : Session) :
    (search_for (post_to fun _ _ => r) s).session.search_result.SelectedContent =
      r.selected_content.getD "" := by
  rw [search_for_content]
  rfl

/-- C7, amended. For every query, non-negative index, prior result and reply `r`
whose body carries the list of names (the other keys may be there or not):
running `search_for` with the server answering `r`, and running it again on the
state it left (same query, the index the first run left) with the server
answering `r` again, leaves the displayed state (`MatchedNames`,
`SelectedIndex`, `SelectedName`, `SelectedContent`) of the first run; neither
run panics, and the shown list of the second run is that of the first, with no
second synthetic entry. -/
theorem search_for_idempotent (r : Reply) (s : Session) (names : List String)
    (hn : r.matched_basenames = some names)
    (h : 0 ≤ s.search_payload.SelectedIndex) :
    (search_for (post_to fun _ _ => r) s).session.search_payload.Query =
        s.search_payload.Query ∧
      displayed
          (search_for (post_to fun _ _ => r)
            (search_for (post_to fun _ _ => r) s).session).session =
        displayed (search_for (post_to fun _ _ => r) s).session ∧
      (search_for (post_to fun _ _ => r) s).panicked = false ∧
      (search_for (post_to fun _ _ => r)
          (search_for (post_to fun _ _ => r) s).session).panicked = false := by
  have hq1 := search_for_query (post_to fun _ _ => r) s
  have hn1 := search_for_names (post_to fun _ _ => r) s
  have hi1 := search_for_index (post_to fun _ _ => r) s
  have hs1 := search_for_selected (post_to fun _ _ => r) s h
  have hc1 := search_for_content_post_to r s
  have hr1 := returned_names_of_carried r s names hn
  have h1 : 0 ≤ (search_for (post_to fun _ _ => r) s).session.search_payload.SelectedIndex := by
    rw [hi1]
    exact reset_index_nonneg _ _ h
  have hn2 := search_for_names (post_to fun _ _ => r) (search_for (post_to fun _ _ => r) s).session
  have hi2 := search_for_index (post_to fun _ _ => r) (search_for (post_to fun _ _ => r) s).session
  have hs2 :=
    search_for_selected (post_to fun _ _ => r) (search_for (post_to fun _ _ => r) s).session h1
  have hc2 := search_for_content_post_to r (search_for (post_to fun _ _ => r) s).session
  have hr2 :=
    returned_names_of_carried r (search_for (post_to fun _ _ => r) s).session names hn
  rw [hr1] at hn1 hi1 hs1
  rw [hr2, hq1] at hn2 hi2 hs2
  rw [hi1, reset_index_idem] at hi2 hs2
  refine ⟨hq1, ?_, hs1.1, hs2.1⟩
  unfold displayed
  rw [hn2, hn1, hi2, hi1, hs2.2, hs1.2, hc2, hc1]

/-- C7, amended, at a concrete input: query `zzz`, index 0, a reply with an
empty list of names; both runs show the one synthetic entry and select the
query. -/
theorem search_for_idempotent_witness :
    displayed
        (search_for (post_to fun _ _ => full_reply false [] [] "")
          (search_for (post_to fun _ _ => full_reply false [] [] "")
            ⟨⟨"zzz", 0⟩, init.search_result⟩).session).session =
      displayed
        (search_for (post_to fun _ _ => full_reply false [] [] "")
          ⟨⟨"zzz", 0⟩, init.search_result⟩).session ∧
    displayed
        (search_for (post_to fun _ _ => full_reply false [] [] "")
          ⟨⟨"zzz", 0⟩, init.search_result⟩).session =
      ⟨["zzz [[Create New Note]]"], 0, "zzz", ""⟩ :=
  ⟨(search_for_idempotent (full_reply false [] [] "") ⟨⟨"zzz", 0⟩, init.search_result⟩ [] rfl
      (by decide)).2.1,
    by decide⟩

/-! ## `adjust_selected_index` (C3) -/

theorem wrap_int_of_fits (z : Int) (hlo : -(2 : Int) ^ 63 ≤ z) (hhi : z < (2 : Int) ^ 63) :
    wrap_int z = z := by
  unfold wrap_int int_bits
  norm_num at hlo hhi ⊢
  omega

/-- C3 as stated fails, twice. On an empty list the function returns before it
touches the index: index 2 stays 2, where the clamp to `[0, 0]` gives 0. And the
sum is a Go `int`: from the largest `int` the step `+1` wraps to the smallest
one and is clamped to 0, where the clamp of the sum to `[0, 3]` gives 3. -/
theorem adjust_selected_index_not_clamp :
    ((adjust_selected_index 1 ⟨⟨":a", 2⟩, init.search_result⟩).search_payload.SelectedIndex = 2 ∧
      min (max ((2 : Int) + 1) 0) (init.search_result.MatchedNames.length : Int) = 0) ∧
    ((adjust_selected_index 1
        ⟨⟨"", 2 ^ 63 - 1⟩,
          { init.search_result with MatchedNames := ["a", "b", "c"] }⟩).search_payload.SelectedIndex
          = 0 ∧
      min (max ((2 ^ 63 - 1 : Int) + 1) 0) ((["a", "b", "c"] : List String).length : Int) = 3) := by
  decide

/-- C3, amended. On an empty match list `adjust_selected_index` changes nothing,
the index included. On a non-empty list, for every index and delta whose sum
fits Go's `int`, it sets the index to `min (max (index + delta) 0) len` and
changes nothing else: the query and the result are as before. -/
theorem adjust_selected_index_clamp (amount : Int) (s : Session) :
    (s.search_result.MatchedNames = [] → adjust_selected_index amount s = s) ∧
    (s.search_result.MatchedNames ≠ [] →
      -(2 : Int) ^ 63 ≤ s.search_payload.SelectedIndex + amount →
      s.search_payload.SelectedIndex + amount < (2 : Int) ^ 63 →
      (adjust_selected_index amount s).search_payload.SelectedIndex =
          min (max (s.search_payload.SelectedIndex + amount) 0)
            (s.search_result.MatchedNames.length : Int) ∧
        (adjust_selected_index amount s).search_payload.Query = s.search_payload.Query ∧
        (adjust_selected_index amount s).search_result = s.search_result) := by
  constructor
  · intro h
    unfold adjust_selected_index
    simp [h]
  · intro h hlo hhi
    have hlen : s.search_result.MatchedNames.length ≠ 0 := by simpa using h
    unfold adjust_selected_index
    rw [if_neg hlen, wrap_int_of_fits _ hlo hhi]
    refine ⟨?_, rfl, rfl⟩
    show (if (if s.search_payload.SelectedIndex + amount >
              (s.search_result.MatchedNames.length : Int) then
            (s.search_result.MatchedNames.length : Int)
          else s.search_payload.SelectedIndex + amount) < 0 then 0
        else (if s.search_payload.SelectedIndex + amount >
              (s.search_result.MatchedNames.length : Int) then
            (s.search_result.MatchedNames.length : Int)
          else s.search_payload.SelectedIndex + amount)) = _
    split_ifs <;> omega

/-- The empty half of C3, amended, at a concrete input: no rows, index 2, delta
`-1`; the session is left as it is. -/
theorem adjust_selected_index_empty_example :
    adjust_selected_index (-1) ⟨⟨":a", 2⟩, init.search_result⟩ =
      ⟨⟨":a", 2⟩, init.search_result⟩ := by
  decide

/-- C3, scenario C: three rows, index 2, delta `+1`; the index becomes 3. -/
theorem adjust_selected_index_clamp_witness :
    (adjust_selected_index 1
      ⟨⟨"", 2⟩, { init.search_result with MatchedNames := ["a", "b", "c"] }⟩).search_payload.SelectedIndex
      = 3 :=
  ((adjust_selected_index_clamp 1
      ⟨⟨"", 2⟩, { init.search_result with MatchedNames := ["a", "b", "c"] }⟩).2
    (by decide) (by decide) (by decide)).1.trans (by decide)

/-! ## Late replies (C4) -/

/-- C4 as stated fails. The query becomes `a` and search R1 is sent, the query
becomes `ab` and search R2 is sent; R2's reply (`ab`) arrives and is applied,
then R1's reply (`a`) arrives. The client keeps no record of which search is
the latest, so R1's reply is decoded into the shared result and reconciled with
the current query `ab`: the displayed state R2 left is replaced. -/
theorem late_reply_replaces_displayed_state :
    displayed
        (run [Event.change "a", Event.sent, Event.change "ab", Event.sent,
          Event.arrived (full_reply false ["ab"] [1] "text of ab")] init) =
      ⟨["ab"], 0, "ab", "text of ab"⟩ ∧
    displayed
        (run [Event.change "a", Event.sent, Event.change "ab", Event.sent,
          Event.arrived (full_reply false ["ab"] [1] "text of ab"),
          Event.arrived (full_reply false ["a"] [1] "text of a")] init) =
      ⟨["a", "ab [[Create New Note]]"], 0, "a", "text of a"⟩ := by
  decide

/-- C4, amended. A reply that arrives late is applied like any other: for every
reply that carries names and content, whatever state the newer search left,
`MatchedNames` becomes the first nine names of the late reply, followed by the
synthetic entry for the current query when that query is not empty and not
among them, `SelectedContent` becomes the content of the late reply, and the
whole displayed state is the one a fresh `search_for` answered by the late reply
would leave. -/
theorem late_reply_applied (r : Reply) (s : Session) (names : List String) (content : String)
    (hn : r.matched_basenames = some names) (hc : r.selected_content = some content) :
    (arrive r s).session.search_result.MatchedNames =
        names.take 9 ++
          (if s.search_payload.Query ≠ "" ∧ s.search_payload.Query ∉ names.take 9
            then [s.search_payload.Query ++ " [[Create New Note]]"] else []) ∧
      (arrive r s).session.search_result.SelectedContent = content ∧
      (arrive r s).session.search_payload.Query = s.search_payload.Query ∧
      displayed (arrive r s).session =
        displayed (search_for (post_to fun _ _ => r) s).session := by
  have hu : Unmarshal r (search_for_sent s).search_result = Unmarshal r s.search_result := by
    unfold Unmarshal search_for_sent
    simp [hc]
  refine ⟨?_, ?_, ?_, ?_⟩
  · unfold arrive
    rw [search_for_rest_names]
    show shown_names _ (r.matched_basenames.getD _) = _
    rw [hn]
    rfl
  · unfold arrive
    rw [search_for_rest_content]
    show r.selected_content.getD _ = _
    rw [hc]
    rfl
  · unfold arrive
    rw [search_for_rest_query]
  · rw [search_for_session]
    show _ = displayed (search_for_rest ⟨s.search_payload,
      Unmarshal r (search_for_sent s).search_result⟩).session
    rw [hu]
    rfl

/-- C4, amended, at a concrete input: the newer search left `ab` on display, the
late reply carries the name `a` and its text. -/
theorem late_reply_applied_witness :
    (arrive (full_reply false ["a"] [1] "text of a")
        ⟨⟨"ab", 0⟩, ⟨false, ["ab"], [1], "text of ab", "ab"⟩⟩).session.search_result.MatchedNames =
      ["a", "ab [[Create New Note]]"] ∧
    (arrive (full_reply false ["a"] [1] "text of a")
        ⟨⟨"ab", 0⟩, ⟨false, ["ab"], [1], "text of ab", "ab"⟩⟩).session.search_result.SelectedContent =
      "text of a" :=
  ⟨(late_reply_applied (full_reply false ["a"] [1] "text of a")
      ⟨⟨"ab", 0⟩, ⟨false, ["ab"], [1], "text of ab", "ab"⟩⟩ ["a"] "text of a" rfl rfl).1.trans
      (by decide),
    (late_reply_applied (full_reply false ["a"] [1] "text of a")
      ⟨⟨"ab", 0⟩, ⟨false, ["ab"], [1], "text of ab", "ab"⟩⟩ ["a"] "text of a" rfl rfl).2.1⟩

/-! ## The bound on the index (C6) -/

set_option maxRecDepth 20000 in
/-- C6 fails on the code. The user types `a` (the server returns three names,
four rows are shown), presses Down twice (index 2), then puts a colon in front
of the query. The local branch of `search` empties `MatchedNames` and leaves the
index alone: the index is 2, the list has length 0. -/
theorem colon_branch_leaves_index_past_end :
    (run [Event.change "a", Event.searched (post_to fun _ _ => (full_reply false ["x", "y", "z"] [] "")),
          Event.adjust 1, Event.searched (post_to fun _ _ => (full_reply false ["x", "y", "z"] [] "")),
          Event.adjust 1, Event.searched (post_to fun _ _ => (full_reply false ["x", "y", "z"] [] "")),
          Event.change ":a",
          Event.searched (post_to fun _ _ => (full_reply false ["x", "y", "z"] [] ""))]
        init).search_payload.SelectedIndex = 2 ∧
    (run [Event.change "a", Event.searched (post_to fun _ _ => (full_reply false ["x", "y", "z"] [] "")),
          Event.adjust 1, Event.searched (post_to fun _ _ => (full_reply false ["x", "y", "z"] [] "")),
          Event.adjust 1, Event.searched (post_to fun _ _ => (full_reply false ["x", "y", "z"] [] "")),
          Event.change ":a",
          Event.searched (post_to fun _ _ => (full_reply false ["x", "y", "z"] [] ""))]
        init).search_result.MatchedNames = [] ∧
    ¬ index_in_range
      (run [Event.change "a", Event.searched (post_to fun _ _ => (full_reply false ["x", "y", "z"] [] "")),
          Event.adjust 1, Event.searched (post_to fun _ _ => (full_reply false ["x", "y", "z"] [] "")),
          Event.adjust 1, Event.searched (post_to fun _ _ => (full_reply false ["x", "y", "z"] [] "")),
          Event.change ":a",
          Event.searched (post_to fun _ _ => (full_reply false ["x", "y", "z"] [] ""))]
        init) := by
  decide

theorem index_in_range_adjust (amount : Int) (s : Session) (h : index_in_range s) :
    index_in_range (adjust_selected_index amount s) := by
  unfold adjust_selected_index
  split
  · exact h
  · unfold index_in_range
    show 0 ≤ (if (if wrap_int (s.search_payload.SelectedIndex + amount) >
              (s.search_result.MatchedNames.length : Int) then
            (s.search_result.MatchedNames.length : Int)
          else wrap_int (s.search_payload.SelectedIndex + amount)) < 0 then 0
        else (if wrap_int (s.search_payload.SelectedIndex + amount) >
              (s.search_result.MatchedNames.length : Int) then
            (s.search_result.MatchedNames.length : Int)
          else wrap_int (s.search_payload.SelectedIndex + amount))) ∧
      (if (if wrap_int (s.search_payload.SelectedIndex + amount) >
              (s.search_result.MatchedNames.length : Int) then
            (s.search_result.MatchedNames.length : Int)
          else wrap_int (s.search_payload.SelectedIndex + amount)) < 0 then 0
        else (if wrap_int (s.search_payload.SelectedIndex + amount) >
              (s.search_result.MatchedNames.length : Int) then
            (s.search_result.MatchedNames.length : Int)
          else wrap_int (s.search_payload.SelectedIndex + amount))) ≤
        (s.search_result.MatchedNames.length : Int)
    generalize wrap_int (s.search_payload.SelectedIndex + amount) = w
    split_ifs <;> omega

theorem index_in_range_search_for (post : post_type) (s : Session)
    (h : 0 ≤ s.search_payload.SelectedIndex) :
    index_in_range (search_for post s).session := by
  unfold index_in_range
  rw [search_for_index, search_for_names]
  exact ⟨reset_index_nonneg _ _ h, reset_index_le _ _⟩

/-- The two functions that move the index keep it in range: without the local
branch of `search`, every session reached from `init` has
`0 ≤ SelectedIndex ≤ len(MatchedNames)`. -/
theorem index_in_range_of_reached_by_calls (s : Session) (h : ReachedByCalls s) :
    index_in_range s := by
  induction h with
  | init => decide
  | adjust amount s _ ih => exact index_in_range_adjust amount s ih
  | change new_query s _ ih => exact ih
  | search_for post s _ ih => exact index_in_range_search_for post s ih.1

/-! ## The local branch of `search` (C9) -/

/-- A query has the colon in front exactly when its first character is a colon. -/
theorem HasPrefix_colon_iff (query : String) :
    HasPrefix query ":" = true ↔ query.data.head? = some ':' := by
  unfold HasPrefix
  show List.isPrefixOf [':'] query.data = true ↔ _
  cases query.data with
  | nil => simp
  | cons c cs =>
    simp only [List.isPrefixOf, Bool.and_true, beq_iff_eq, List.head?_cons, Option.some.injEq]
    exact eq_comm

theorem posts_search_for_rest (s : Session) : posts (search_for_rest s).effects = [] := by
  unfold search_for_rest
  simp only [truncate_eq_take, append_synthetic_eq]
  generalize shown_names s.search_payload.Query s.search_result.MatchedNames = names
  split_ifs <;> first | rfl | (split <;> rfl)

theorem posts_search_for (post : post_type) (s : Session) :
    posts (search_for post s).effects = [("search", Payload.search s.search_payload)] := by
  show posts (Effect.post "search" (Payload.search s.search_payload) ::
    (search_for_rest ⟨s.search_payload, _⟩).effects) = _
  have h := posts_search_for_rest
    ⟨s.search_payload,
      post "search" (Payload.search s.search_payload) (search_for_sent s).search_result⟩
  unfold posts at h ⊢
  rw [List.filterMap_cons]
  exact congrArg (List.cons ("search", Payload.search s.search_payload)) h

theorem posts_append (es fs : List Effect) : posts (es ++ fs) = posts es ++ posts fs := by
  unfold posts
  exact List.filterMap_append es fs _

/-- C9. For every query that starts with a colon, `search` posts nothing and
leaves `MatchedNames`, `SelectedContent` and `SelectedName` empty; for every
query that does not, `search` posts exactly once, to `search`, with the query
and the index the session holds at that moment. -/
theorem search_posts (post : post_type) (s : Session) :
    (HasPrefix s.search_payload.Query ":" = true →
      posts (search post s).2 = [] ∧
        (search post s).1.search_result.MatchedNames = [] ∧
        (search post s).1.search_result.SelectedContent = "" ∧
        (search post s).1.search_result.SelectedName = "") ∧
    (HasPrefix s.search_payload.Query ":" = false →
      posts (search post s).2 =
        [("search", Payload.search ⟨s.search_payload.Query, s.search_payload.SelectedIndex⟩)]) := by
  constructor
  · intro h
    unfold search
    rw [if_pos h]
    exact ⟨rfl, rfl, rfl, rfl⟩
  · intro h
    unfold search
    rw [if_neg (by simp [h])]
    show posts (if (search_for post s).panicked = true then
        ((search_for post s).session, (search_for post s).effects ++ [Effect.stop])
      else ((search_for post s).session, (search_for post s).effects ++ [Effect.draw])).2 = _
    split <;>
    · show posts (_ ++ _) = _
      rw [posts_append, posts_search_for]
      rfl

/-- C9, scenario D: the query `:q` is handled without a post and clears what
is shown. -/
theorem search_posts_witness :
    posts (search (post_to fun _ _ => (full_reply false ["todo"] [1] "text"))
        ⟨⟨":q", 0⟩, ⟨false, ["todo"], [1], "text", "todo"⟩⟩).2 = [] ∧
      (search (post_to fun _ _ => (full_reply false ["todo"] [1] "text"))
        ⟨⟨":q", 0⟩, ⟨false, ["todo"], [1], "text", "todo"⟩⟩).1.search_result.MatchedNames = [] ∧
      (search (post_to fun _ _ => (full_reply false ["todo"] [1] "text"))
        ⟨⟨":q", 0⟩, ⟨false, ["todo"], [1], "text", "todo"⟩⟩).1.search_result.SelectedContent
        = "" ∧
      (search (post_to fun _ _ => (full_reply false ["todo"] [1] "text"))
        ⟨⟨":q", 0⟩, ⟨false, ["todo"], [1], "text", "todo"⟩⟩).1.search_result.SelectedName = "" :=
  (search_posts (post_to fun _ _ => (full_reply false ["todo"] [1] "text"))
    ⟨⟨":q", 0⟩, ⟨false, ["todo"], [1], "text", "todo"⟩⟩).1 (by decide)

/-- The other half of C9 at a concrete input: the query `todo` at index 1 is
posted once, as it stands. -/
theorem search_posts_once_example :
    posts (search (post_to fun _ _ => (full_reply false ["todo"] [1] "text"))
        ⟨⟨"todo", 1⟩, init.search_result⟩).2 = [("search", Payload.search ⟨"todo", 1⟩)] := by
  decide

/-! ## The Enter key (C10) -/

/-- C10 as stated fails, twice. With the query `:q` the handler calls
`app.Stop()` and then goes on to call `open_note` (there is no return after the
stop). With the query `:x` and an empty `SelectedName` the handler calls
`open_note` with the query as the note name, not with `SelectedName`. -/
theorem enter_opens_note_named_as_query :
    (stopped (input_capture (post_to fun _ _ => (full_reply false [] [] "")) Key.KeyEnter
        ⟨⟨":q", 0⟩, init.search_result⟩).2 = true ∧
      opened (input_capture (post_to fun _ _ => (full_reply false [] [] "")) Key.KeyEnter
        ⟨⟨":q", 0⟩, init.search_result⟩).2 = [(":q", "")]) ∧
    (init.search_result.SelectedName = "" ∧
      opened (input_capture (post_to fun _ _ => (full_reply false [] [] "")) Key.KeyEnter
        ⟨⟨":x", 0⟩, init.search_result⟩).2 = [(":x", "")]) := by
  decide

/-- C10, amended. On Enter the session is left as it is; the application is
stopped exactly when the query is `:q`; and when the query is not `:q`,
`open_note` is called once, with `SelectedContent` and with `SelectedName` as
the note name, or the query when `SelectedName` is empty. -/
theorem enter_key (post : post_type) (s : Session) :
    (input_capture post Key.KeyEnter s).1 = s ∧
      (stopped (input_capture post Key.KeyEnter s).2 = true ↔ s.search_payload.Query = ":q") ∧
      (s.search_payload.Query ≠ ":q" →
        opened (input_capture post Key.KeyEnter s).2 =
          [(if s.search_result.SelectedName = "" then s.search_payload.Query
            else s.search_result.SelectedName, s.search_result.SelectedContent)]) := by
  refine ⟨rfl, ?_, ?_⟩
  · by_cases hq : s.search_payload.Query = ":q"
    · simp [input_capture, stopped, hq]
    · simp [input_capture, stopped, hq]
  · intro hq
    simp [input_capture, opened, hq]

/-- C10 at a concrete input: query `todo`, selected name `todo`; Enter does not
stop the application and opens the note `todo` with the preview text. -/
theorem enter_key_witness :
    opened (input_capture (post_to fun _ _ => (full_reply false [] [] "")) Key.KeyEnter
        ⟨⟨"todo", 0⟩, ⟨false, ["todo"], [1], "text", "todo"⟩⟩).2 = [("todo", "text")] ∧
      stopped (input_capture (post_to fun _ _ => (full_reply false [] [] "")) Key.KeyEnter
        ⟨⟨"todo", 0⟩, ⟨false, ["todo"], [1], "text", "todo"⟩⟩).2 = false :=
  ⟨((enter_key (post_to fun _ _ => (full_reply false [] [] ""))
      ⟨⟨"todo", 0⟩, ⟨false, ["todo"], [1], "text", "todo"⟩⟩).2.2 (by decide)).trans (by decide),
    by decide⟩

end ElectricNotes
